import Mathlib

/-!
Verification of the rshare tunnel relay (src/src/tunnel/server.rs and
src/src/tunnel/client.rs) against its natural-language specification.

The Rust code is shallowly embedded: the registry (`HashMap<String, ClientInfo>`)
becomes an association list with insert-replace semantics, the per-connection
handlers become pure functions over explicit event scripts, and the tokio mpsc
channels become lists of the values sent on them.  Byte payloads (`Vec<u8>`)
that the code produces with `String::into_bytes` are modelled at the `String`
level (UTF-8 encoding is injective, and no claim distinguishes two strings with
equal bytes).
-/

namespace RShare

/-- Wire frame, from the `TunnelMessage` enum in src/src/tunnel/client.rs
(lines 15-28).  `Data` carries `Vec<u8>`, modelled as the `String` whose UTF-8
bytes it holds. -/
inductive TunnelMessage where
  | Register (client_id : String) (domain : Option String)
  | Registered (url : String)
  | Data (data : String)
  | KeepAlive
deriving DecidableEq, Repr

/-- The server's registry value type: src/src/tunnel/server.rs lines 21-26,
`ClientInfo` keeps `domain`; its `sender` (an mpsc handle) is represented
implicitly by the session's queue where needed, so a registry entry is the pair
(client_id, domain). -/
abbrev Registry := List (String × Option String)

/-- HashMap::remove on the association-list registry. -/
def removeClient (m : Registry) (id : String) : Registry :=
  m.filter (fun p => p.1 ≠ id)

/-- HashMap::insert on the association-list registry: at most one entry per key
after insertion (src/src/tunnel/server.rs lines 99-106). -/
def insertClient (m : Registry) (id : String) (d : Option String) : Registry :=
  (id, d) :: removeClient m id

/-- src/src/tunnel/server.rs lines 110-116: the public URL sent back in
`Registered`. -/
def tunnel_url (client_id : String) (domain : Option String) : String :=
  let domain_part :=
    match domain with
    | some domain_val => domain_val
    | none => client_id ++ ".public.dev.peril.lol"
  "https://" ++ domain_part

/-- What `tokio::time::timeout(30s, rx.recv())` can observe on the per-request
response channel of src/src/tunnel/server.rs line 282. -/
inductive RecvEvent where
  | value (d : String)
  | closed
  | pending
deriving DecidableEq, Repr

/-- Gateway outcome of the await at src/src/tunnel/server.rs lines 300-322. -/
inductive GatewayOutcome where
  | ok (data : String)
  | badGateway502
  | gatewayTimeout504
deriving DecidableEq, Repr

/-- src/src/tunnel/server.rs lines 300-322: a received value is returned as a
`200 OK` body; `Ok(None)` (all senders dropped) gives `502 Bad Gateway`;
elapsing gives `504 Gateway Timeout`. -/
def awaitWithTimeout : RecvEvent → GatewayOutcome
  | RecvEvent.value d => GatewayOutcome.ok d
  | RecvEvent.closed => GatewayOutcome.badGateway502
  | RecvEvent.pending => GatewayOutcome.gatewayTimeout504

/-- Semantics of `timeout(30s, rx.recv())`: the first value sent within the
window if any, otherwise `closed` when every Sender was dropped, otherwise
`pending` (the timeout elapses). -/
def recvOutcome (sends : List String) (sendersDropped : Bool) : RecvEvent :=
  match sends with
  | d :: _ => RecvEvent.value d
  | [] => if sendersDropped then RecvEvent.closed else RecvEvent.pending

/-- The values ever sent on the response channel created at
src/src/tunnel/server.rs line 282.  Its Sender `_tx` is never cloned, stored,
or passed to any other task, and no statement in the source sends on it; the
client's `Data` frames are handled at lines 145-151 by a `println!` alone.
Hence the list of sends is empty. -/
def responseChannelSends : List String := []

/-- Whether every Sender of that channel is dropped while the gateway task
awaits: `_tx` is a live binding of the very function doing the await (it is
dropped only when `handle_request` returns), so the channel is never closed
during the await. -/
def responseSendersDropped : Bool := false

/-- What the await at src/src/tunnel/server.rs line 302 actually observes in
the running program, by the two facts above. -/
def actual_recv : RecvEvent := recvOutcome responseChannelSends responseSendersDropped

/-- A public HTTP request as `handle_request` (src/src/tunnel/server.rs lines
231-323) consumes it: the `Host` header (None when absent), the method, the
optional path-and-query of the URI, and — untouched by the code — the other
headers and the body. -/
structure HttpRequest where
  host : Option String
  method : String
  pathAndQuery : Option String
  headers : List (String × String)
  body : String

/-- src/src/tunnel/server.rs line 245: `host.split('/').next().unwrap_or(&host)`,
the characters of the host before the first '/'. -/
def base_domain (host : String) : List Char :=
  host.data.takeWhile (fun c => c ≠ '/')

/-- First matching pass, src/src/tunnel/server.rs lines 254-261: a session with
a configured custom domain matches when the base domain starts with it.  Rust's
`str::starts_with` is character-prefix, modelled with `List.isPrefixOf` on the
character lists. -/
def matchesDomain (bd : List Char) (domain : Option String) : Bool :=
  match domain with
  | some d => d.data.isPrefixOf bd
  | none => false

/-- Second matching pass, src/src/tunnel/server.rs lines 264-271: the base
domain starts with `format!("{}.public.dev.peril.lol", id)`. -/
def matchesSubdomain (bd : List Char) (id : String) : Bool :=
  (id ++ ".public.dev.peril.lol").data.isPrefixOf bd

/-- The two inline matching loops of src/src/tunnel/server.rs lines 248-277:
first a domain match over the sessions, then a client-id subdomain match; the
first match wins.  (The source iterates a HashMap, whose order is unspecified;
the model fixes list order, which no claim below depends on.) -/
def find_client (clients : Registry) (bd : List Char) : Option String :=
  match clients.find? (fun p => matchesDomain bd p.2) with
  | some p => some p.1
  | none =>
    match clients.find? (fun p => matchesSubdomain bd p.1) with
    | some p => some p.1
    | none => none

/-- src/src/tunnel/server.rs lines 284-290: the serialized request handed to
the client.  Only the method, the path-and-query (with "/" when absent) and the
Host header survive; `into_bytes` then yields this string's UTF-8 bytes. -/
def request_data (method : String) (pathAndQuery : Option String) (host : String) : String :=
  method ++ " " ++ pathAndQuery.getD "/" ++ " HTTP/1.1\r\nHost: " ++ host ++ "\r\n\r\n"

/-- Result of one gateway request.  `dispatched` records the matched client,
the single frame enqueued on that session's channel (line 296-298) and the
outcome of the 30-second await; `notFound404` is returned before anything is
dispatched (lines 238, 275). -/
inductive RequestResult where
  | notFound404
  | dispatched (clientId : String) (frame : TunnelMessage) (outcome : GatewayOutcome)
deriving DecidableEq, Repr

/-- src/src/tunnel/server.rs lines 231-323, `handle_request`: extract the Host
header (absent → 404), route through the two matching passes (no match → 404),
otherwise serialize the request, enqueue it as a `Data` frame on the matched
session's channel and await the response channel; `recv` is what that await
observes (in the running program, `actual_recv`). -/
def handle_request (clients : Registry) (req : HttpRequest) (recv : RecvEvent) : RequestResult :=
  match req.host with
  | none => RequestResult.notFound404
  | some host =>
    match find_client clients (base_domain host) with
    | none => RequestResult.notFound404
    | some cid =>
      RequestResult.dispatched cid
        (TunnelMessage.Data (request_data req.method req.pathAndQuery host))
        (awaitWithTimeout recv)

/-- Outcome of the first `ws_receiver.next().await` at src/src/tunnel/server.rs
lines 86-88, after the `serde_json::from_slice` decode attempt of line 87:
either a Binary frame decoding to `Register`, a Binary frame decoding to some
other `TunnelMessage`, a Binary frame that fails to decode, or anything else
(a non-Binary message, a stream error, or end of stream) — the last of which
falls out of the `if let` without entering the match. -/
inductive FirstMsg where
  | regOk (client_id : String) (domain : Option String)
  | otherFrame
  | badDecode
  | nonBinary
deriving DecidableEq, Repr

/-- One event of the per-session read loop, src/src/tunnel/server.rs lines
140-175, with the decode of line 143 and — for a KeepAlive reply — the result
of the `ws_sender.send` of lines 154-158 folded in.  The loop also ends when
`ws_receiver.next()` yields `None` or `Some(Err(_))` (the `while let` pattern
fails); that is the end of the event list. -/
inductive SessEvent where
  | dataFrame (d : String)
  | keepAliveFrame (sendOk : Bool)
  | otherTunnelMsg
  | badDecode
  | closeFrame
  | otherWsMsg
deriving DecidableEq, Repr

/-- The per-session read loop of src/src/tunnel/server.rs lines 140-175,
returning the frames it writes to the WebSocket.  A `Data` frame only hits the
`println!` of lines 147-150 — its payload is delivered to no pending waiter; a
`KeepAlive` is answered with a `KeepAlive` (a failed reply send breaks the
loop); any other decoded frame and any decode failure are ignored; `Close`
breaks the loop; other message kinds are skipped. -/
def sessionLoop : List SessEvent → List TunnelMessage
  | [] => []
  | SessEvent.dataFrame _ :: rest => sessionLoop rest
  | SessEvent.keepAliveFrame true :: rest => TunnelMessage.KeepAlive :: sessionLoop rest
  | SessEvent.keepAliveFrame false :: _ => []
  | SessEvent.otherTunnelMsg :: rest => sessionLoop rest
  | SessEvent.badDecode :: rest => sessionLoop rest
  | SessEvent.closeFrame :: _ => []
  | SessEvent.otherWsMsg :: rest => sessionLoop rest

/-- One control-channel connection's script: the first received frame, the
result of the `ws_sender.send` of the `Registered` confirmation at
src/src/tunnel/server.rs lines 121-123 (the `?` operators there turn a failure
into an early return), and the subsequent session events. -/
structure WsConn where
  firstMsg : FirstMsg
  registeredSendOk : Bool
  events : List SessEvent

/-- src/src/tunnel/server.rs lines 77-189, `handle_ws_connection`, as a
function from the registry and the connection script to the final registry and
the frames written to this connection's WebSocket.  A first frame that is not a
decodable `Register` reaches only the `println!` of line 183 and the function
returns with the registry untouched.  On `Register`: the session is inserted
(lines 98-107) BEFORE the `Registered` confirmation is sent (lines 121-123);
if that send fails, the `?` returns early and the removal of lines 178-179 is
never reached; otherwise the read loop runs and on any loop exit the entry is
removed. -/
def handle_ws_connection (clients : Registry) (c : WsConn) : Registry × List TunnelMessage :=
  match c.firstMsg with
  | FirstMsg.regOk cid dom =>
    let clients1 := insertClient clients cid dom
    if c.registeredSendOk then
      let replies := sessionLoop c.events
      (removeClient clients1 cid, TunnelMessage.Registered (tunnel_url cid dom) :: replies)
    else
      (clients1, [])
  | _ => (clients, [])

/-- State of the spawned per-session forwarding task of
src/src/tunnel/server.rs lines 130-137: the content of the session's mpsc
channel and the frames this task has written to the WebSocket socket. -/
structure PumpState where
  queue : List TunnelMessage
  socketWrites : List TunnelMessage
deriving DecidableEq, Repr

/-- One iteration of that task's loop: `receiver.recv().await` dequeues the
front message m, and the body then executes `sender_for_ws.send(m).await` —
but `sender_for_ws` is `sender.clone()` (line 127), a Sender of the SAME mpsc
channel `receiver` reads from, so m is re-enqueued at the back of the same
queue.  No statement in the task writes to `ws_sender`.  An empty queue means
`recv` pends (the task itself holds a live Sender, so the channel never
closes). -/
def pumpStep (s : PumpState) : Option PumpState :=
  match s.queue with
  | [] => none
  | m :: rest => some { queue := rest ++ [m], socketWrites := s.socketWrites }

/-- Up to n iterations of the forwarding task's loop. -/
def pumpRun : Nat → PumpState → PumpState
  | 0, s => s
  | n + 1, s =>
    match pumpStep s with
    | none => s
    | some t => pumpRun n t

/-- Observable step of the tunnel agent's forwarding task,
src/src/tunnel/client.rs lines 102-215: a WebSocket connection attempt to the
relay's data channel (line 110), a TCP connection attempt to the local service
(line 125), a line pushed on the log channel, a frame sent on the control
socket, a sleep, or the function returning. -/
inductive AgentAction where
  | connectData
  | connectLocal
  | sendFrame (m : TunnelMessage)
  | logLine (s : String)
  | sleepSecs (n : Nat)
  | stop
deriving DecidableEq, Repr

/-- Result of one local-service bridge attempt inside the `Data` branch of
src/src/tunnel/client.rs lines 123-172: the TCP connect fails, the write
fails, the single `read` returns n > 0 bytes (modelled as the response
string), the read returns 0, or the read errors. -/
inductive BridgeResult where
  | connectFailed
  | writeFailed
  | readOk (resp : String)
  | readZero
  | readErr
deriving DecidableEq, Repr

/-- One event of the agent's main loop, src/src/tunnel/client.rs lines
119-201: a decoded `Data` frame together with its bridge result and — when a
response is read — whether the `socket.send` of lines 143-147 succeeds (its
`?` would end the function); a `KeepAlive` with the result of the echo send of
lines 176-180; a frame that fails to decode or decodes to another variant
(both hit the `_` arm of lines 182-186); a `Close` frame; a WebSocket error;
or any other message kind. -/
inductive CliEvent where
  | dataFrame (b : BridgeResult) (sendOk : Bool)
  | keepAliveFrame (sendOk : Bool)
  | unknownFrame
  | closeFrame
  | wsErr
  | otherWsMsg
deriving DecidableEq, Repr

/-- Actions of one `Data` bridge, src/src/tunnel/client.rs lines 123-172. -/
def bridgeActions : BridgeResult → List AgentAction
  | BridgeResult.connectFailed =>
    [AgentAction.connectLocal, AgentAction.logLine "Failed to connect to local service"]
  | BridgeResult.writeFailed =>
    [AgentAction.connectLocal, AgentAction.logLine "Error writing to local service"]
  | BridgeResult.readOk resp =>
    [AgentAction.connectLocal, AgentAction.sendFrame (TunnelMessage.Data resp)]
  | BridgeResult.readZero =>
    [AgentAction.connectLocal, AgentAction.logLine "Local service closed the connection"]
  | BridgeResult.readErr =>
    [AgentAction.connectLocal, AgentAction.logLine "Error reading from local service"]

/-- The agent's main loop, src/src/tunnel/client.rs lines 119-201, returning
the actions performed and whether the loop was left normally (break or end of
stream — the epilogue then runs) as opposed to an early `?` return on a failed
control-socket send. -/
def cliLoop : List CliEvent → List AgentAction × Bool
  | [] => ([], true)
  | CliEvent.dataFrame b sendOk :: rest =>
    match b with
    | BridgeResult.readOk resp =>
      if sendOk then
        let r := cliLoop rest
        (bridgeActions (BridgeResult.readOk resp) ++ r.1, r.2)
      else ([AgentAction.connectLocal], false)
    | b' =>
      let r := cliLoop rest
      (bridgeActions b' ++ r.1, r.2)
  | CliEvent.keepAliveFrame sendOk :: rest =>
    if sendOk then
      let r := cliLoop rest
      (AgentAction.sendFrame TunnelMessage.KeepAlive :: r.1, r.2)
    else ([], false)
  | CliEvent.unknownFrame :: rest =>
    let r := cliLoop rest
    (AgentAction.logLine "Received unknown message type" :: r.1, r.2)
  | CliEvent.closeFrame :: _ =>
    ([AgentAction.logLine "Server closed the connection"], true)
  | CliEvent.wsErr :: _ =>
    ([AgentAction.logLine "WebSocket error"], true)
  | CliEvent.otherWsMsg :: rest => cliLoop rest

/-- src/src/tunnel/client.rs lines 102-215, `handle_forwarding`, as the action
trace of one invocation (log-channel sends assumed delivered; the initial
`connect_async` assumed successful, as the claim concerns an agent that was
Active).  After the loop the epilogue of lines 203-214 runs: log
"Disconnected from server", sleep five seconds, log "Attempting to
reconnect...", and then — per the comment at line 213, "This would normally
try to reconnect, but for the example we'll just return" — return Ok. -/
def handle_forwarding (events : List CliEvent) : List AgentAction :=
  let r := cliLoop events
  (AgentAction.connectData
    :: AgentAction.logLine "Connected to server data channel"
    :: (r.1 ++
      if r.2 then
        [AgentAction.logLine "Disconnected from server",
         AgentAction.sleepSecs 5,
         AgentAction.logLine "Attempting to reconnect..."]
      else []))
  ++ [AgentAction.stop]

/-- Whether an action is an attempt to (re)connect to the relay's data
channel. -/
def isConnectData : AgentAction → Bool
  | AgentAction.connectData => true
  | _ => false

/-- Helper: inverting a `dispatched` result of `handle_request` recovers the
matched host, the routing decision, the serialized frame and the awaited
outcome. -/
theorem handle_request_dispatched (clients : Registry) (req : HttpRequest)
    (recv : RecvEvent) (cid : String) (f : TunnelMessage) (o : GatewayOutcome)
    (h : handle_request clients req recv = RequestResult.dispatched cid f o) :
    ∃ host, req.host = some host
      ∧ find_client clients (base_domain host) = some cid
      ∧ f = TunnelMessage.Data (request_data req.method req.pathAndQuery host)
      ∧ o = awaitWithTimeout recv := by
  unfold handle_request at h
  split at h
  · exact RequestResult.noConfusion h
  · next host heq =>
    split at h
    · exact RequestResult.noConfusion h
    · next c hf =>
      injection h with h1 h2 h3
      exact ⟨host, heq, h1 ▸ hf, h2.symm, h3.symm⟩

/-- The specification's host-matching condition for one session, stated on the
full host string exactly as the spec words it ("custom domain is a prefix of
hostname", "hostname starts with clientId.baseSuffix"): the code-side
per-session check for the first matching pass. -/
def specDomainMatch (host : String) (dom : Option String) : Bool :=
  match dom with
  | some d => d.data.isPrefixOf host.data
  | none => false

/-- The specification's host-matching condition for one session: either its
custom domain is a prefix of the host or the host starts with
clientId ++ ".public.dev.peril.lol". -/
def specMatches (host : String) (p : String × Option String) : Bool :=
  specDomainMatch host p.2
    || (p.1 ++ ".public.dev.peril.lol").data.isPrefixOf host.data

/-- Helper: the agent's main loop never attempts a relay data-channel
connection (its only connections are to the local service). -/
theorem cliLoop_no_connectData (evs : List CliEvent) :
    ((cliLoop evs).1).countP isConnectData = 0 := by
  induction evs with
  | nil => rfl
  | cons ev rest ih =>
    cases ev with
    | dataFrame b sendOk =>
      cases b <;> cases sendOk <;>
        simp [cliLoop, bridgeActions, List.countP_append, List.countP_cons,
          isConnectData, ih]
    | keepAliveFrame sendOk =>
      cases sendOk <;> simp [cliLoop, List.countP_cons, isConnectData, ih]
    | unknownFrame => simp [cliLoop, List.countP_cons, isConnectData, ih]
    | closeFrame => simp [cliLoop, List.countP_cons, isConnectData]
    | wsErr => simp [cliLoop, List.countP_cons, isConnectData]
    | otherWsMsg => simpa [cliLoop] using ih

/-- C1: the claim says a Dispatch followed by a Resolve with the same requestId
delivers the Resolve bytes to the gateway caller exactly once.  In the code the
opposite holds: the session read loop discards every `Data` (HttpResponse)
frame (src/src/tunnel/server.rs lines 145-151 are a println! only), nothing is
ever sent on the gateway's per-request response channel (line 282, `_tx`
unused), and a dispatched request therefore ends in a 504 timeout with no bytes
delivered — no requestId even exists on the wire. -/
theorem c1_dispatch_resolve_never_delivered :
    (∀ d rest, sessionLoop (SessEvent.dataFrame d :: rest) = sessionLoop rest)
    ∧ responseChannelSends = []
    ∧ handle_request [("abc", none)]
        { host := some "abc.public.dev.peril.lol", method := "GET",
          pathAndQuery := none, headers := [], body := "" } actual_recv
      = RequestResult.dispatched "abc"
          (TunnelMessage.Data "GET / HTTP/1.1\r\nHost: abc.public.dev.peril.lol\r\n\r\n")
          GatewayOutcome.gatewayTimeout504 :=
  ⟨fun _ _ => rfl, rfl, rfl⟩

/-- C2: the claim says the per-session outbound pump dequeues each frame from
the session's channel and writes it to the client's socket.  In the code
(src/src/tunnel/server.rs lines 126-137) the spawned task sends each dequeued
frame back into the same mpsc channel (`sender_for_ws` is `sender.clone()`),
so its socket-write trace stays empty forever: starting from a queue holding
one KeepAlive frame, the state just cycles and nothing is ever written. -/
theorem c2_outbound_pump_never_writes_socket :
    (∀ n s, (pumpRun n s).socketWrites = s.socketWrites)
    ∧ pumpRun 3 { queue := [TunnelMessage.KeepAlive], socketWrites := [] }
      = { queue := [TunnelMessage.KeepAlive], socketWrites := [] } := by
  constructor
  · intro n
    induction n with
    | zero => intro s; rfl
    | succ n ih =>
      intro s
      unfold pumpRun pumpStep
      cases hq : s.queue with
      | nil => rfl
      | cons m rest => exact ih _
  · rfl

/-- C3: every dispatched public request whose response channel receives nothing
within the 30-second window ends in `504 Gateway Timeout` — and in the running
program the channel always receives nothing (`actual_recv` pends), so every
dispatched request is a 504.  The rest of the claim (a pending entry keyed by
requestId is removed so a later Resolve is a no-op) has no counterpart in the
code: no requestId is allocated and no pending map exists. -/
theorem c3_every_request_times_out (clients : Registry) (req : HttpRequest)
    (cid : String) (f : TunnelMessage) (o : GatewayOutcome)
    (h : handle_request clients req actual_recv = RequestResult.dispatched cid f o) :
    o = GatewayOutcome.gatewayTimeout504 := by
  obtain ⟨host, _, _, _, ho⟩ := handle_request_dispatched clients req actual_recv cid f o h
  exact ho

/-- Witness for C3 at a concrete dispatched request. -/
theorem c3_every_request_times_out_witness :
    awaitWithTimeout actual_recv = GatewayOutcome.gatewayTimeout504 :=
  c3_every_request_times_out [("abc", none)]
    { host := some "abc.public.dev.peril.lol", method := "GET",
      pathAndQuery := none, headers := [], body := "" }
    "abc" (TunnelMessage.Data (request_data "GET" none "abc.public.dev.peril.lol"))
    (awaitWithTimeout actual_recv) rfl

/-- C4: the first half of the claim holds — HashMap::insert keeps at most one
session per clientId and a re-registration replaces the prior entry — but the
second half fails: the replaced session's in-flight request is not failed with
ClientReplaced/ClientDisconnected; its response channel is untouched by the
registry (no code references it), so the gateway wait still ends in the full
30-second 504 timeout, and no 502/replaced signal occurs. -/
theorem c4_reregister_replaces_but_inflight_times_out :
    insertClient (insertClient [] "abc" none) "abc" (some "custom.example")
      = [("abc", some "custom.example")]
    ∧ awaitWithTimeout (recvOutcome responseChannelSends responseSendersDropped)
      = GatewayOutcome.gatewayTimeout504
    ∧ awaitWithTimeout (recvOutcome responseChannelSends responseSendersDropped)
      ≠ GatewayOutcome.badGateway502 :=
  ⟨rfl, rfl, by decide⟩

/-- C5: the claim says every close of a registered control connection removes
the session — including an error while sending the `Registered` confirmation.
In the code the session is inserted before that send, and a send failure
returns early through `?` (src/src/tunnel/server.rs lines 121-123), skipping
the removal of lines 178-179: the registry still holds "abc" afterwards.  When
the confirmation send succeeds, the removal does run on loop exit. -/
theorem c5_registered_send_error_leaks_session :
    (handle_ws_connection []
        { firstMsg := FirstMsg.regOk "abc" none, registeredSendOk := false, events := [] }).1
      = [("abc", none)]
    ∧ (handle_ws_connection []
        { firstMsg := FirstMsg.regOk "abc" none, registeredSendOk := true, events := [] }).1
      = [] :=
  ⟨rfl, rfl⟩

/-- C6: the public URL returned by registration is `https://` ++ domain when a
domain is provided, and `https://` ++ clientId ++ `.public.dev.peril.lol`
otherwise; registering clientId "abc" with no domain sends exactly
`Registered` with url `https://abc.public.dev.peril.lol`. -/
theorem c6_registered_url :
    (∀ cid d, tunnel_url cid (some d) = "https://" ++ d)
    ∧ (∀ cid, tunnel_url cid none = "https://" ++ (cid ++ ".public.dev.peril.lol"))
    ∧ (handle_ws_connection []
        { firstMsg := FirstMsg.regOk "abc" none, registeredSendOk := true, events := [] }).2
      = [TunnelMessage.Registered "https://abc.public.dev.peril.lol"] :=
  ⟨fun _ _ => rfl, fun _ => rfl, rfl⟩

/-- C7: a public request whose Host header is absent, or whose host is matched
by no active session — no session's custom domain is a character-prefix of the
host and no session's clientId ++ ".public.dev.peril.lol" is one — gets
`404 Not Found`, and nothing is dispatched (the `dispatched` result, which
carries the enqueued frame, is not produced).  The code matches prefixes of
`base_domain host` (the host up to the first '/'), itself a prefix of the
host, so no match on the host implies no match in the code. -/
theorem c7_no_match_404 (clients : Registry) (req : HttpRequest) (recv : RecvEvent)
    (h : ∀ host, req.host = some host → ∀ p, p ∈ clients → specMatches host p = false) :
    handle_request clients req recv = RequestResult.notFound404 := by
  cases hh : req.host with
  | none => simp [handle_request, hh]
  | some host =>
    have hb : base_domain host <+: host.data := List.takeWhile_prefix _
    have h1 : clients.find? (fun p => matchesDomain (base_domain host) p.2) = none := by
      rw [List.find?_eq_none]
      intro p hp hmp
      have hs := h host hh p hp
      simp only [specMatches, Bool.or_eq_false_iff] at hs
      cases hd : p.2 with
      | none => rw [hd] at hmp; simp [matchesDomain] at hmp
      | some d =>
        rw [hd] at hmp
        simp only [matchesDomain] at hmp
        have hpre : d.data.isPrefixOf host.data = true :=
          List.isPrefixOf_iff_prefix.mpr ((List.isPrefixOf_iff_prefix.mp hmp).trans hb)
        have hfa := hs.1
        rw [hd] at hfa
        simp only [specDomainMatch] at hfa
        rw [hfa] at hpre
        exact Bool.noConfusion hpre
    have h2 : clients.find? (fun p => matchesSubdomain (base_domain host) p.1) = none := by
      rw [List.find?_eq_none]
      intro p hp hmp
      have hs := h host hh p hp
      simp only [specMatches, Bool.or_eq_false_iff] at hs
      simp only [matchesSubdomain] at hmp
      have hpre : (p.1 ++ ".public.dev.peril.lol").data.isPrefixOf host.data = true :=
        List.isPrefixOf_iff_prefix.mpr ((List.isPrefixOf_iff_prefix.mp hmp).trans hb)
      rw [hs.2] at hpre
      exact Bool.noConfusion hpre
    simp [handle_request, hh, find_client, h1, h2]

/-- Witness for C7: one registered client "abc" with no custom domain, and a
request for an unrelated host, is answered 404. -/
theorem c7_no_match_404_witness :
    handle_request [("abc", none)]
      { host := some "zzz.example", method := "GET",
        pathAndQuery := none, headers := [], body := "" } RecvEvent.pending
      = RequestResult.notFound404 :=
  c7_no_match_404 _ _ _ (by
    intro host hh
    injection hh with hh1
    subst hh1
    decide)

/-- C8: a first control-channel frame that is not a decodable `Register` — a
Binary frame decoding to another variant, a Binary frame that fails to decode,
or any non-Binary first event — makes the handler return with the registry
unchanged and nothing written: no session is created. -/
theorem c8_invalid_first_frame_no_session (clients : Registry) (c : WsConn)
    (h : ∀ cid dom, c.firstMsg ≠ FirstMsg.regOk cid dom) :
    handle_ws_connection clients c = (clients, []) := by
  cases hm : c.firstMsg with
  | regOk cid dom => exact absurd hm (h cid dom)
  | otherFrame => simp [handle_ws_connection, hm]
  | badDecode => simp [handle_ws_connection, hm]
  | nonBinary => simp [handle_ws_connection, hm]

/-- Witness for C8: a first frame that fails to decode leaves a one-client
registry exactly as it was. -/
theorem c8_invalid_first_frame_no_session_witness :
    handle_ws_connection [("xyz", some "d.example")]
      { firstMsg := FirstMsg.badDecode, registeredSendOk := true, events := [] }
      = ([("xyz", some "d.example")], []) :=
  c8_invalid_first_frame_no_session _ _ (fun _ _ h => FirstMsg.noConfusion h)

/-- C9: the claim says that after a socket close or fatal error the agent waits
5 seconds and then reconnects, indefinitely.  In the code
(src/src/tunnel/client.rs lines 203-214) the agent logs, sleeps 5 seconds,
logs "Attempting to reconnect..." and then returns: every trace contains
exactly one data-channel connection attempt and ends with the function
returning, as the concrete close-frame trace shows. -/
theorem c9_no_reconnect_after_backoff :
    (∀ evs, (handle_forwarding evs).countP isConnectData = 1
      ∧ ∃ pre, handle_forwarding evs = pre ++ [AgentAction.stop])
    ∧ handle_forwarding [CliEvent.closeFrame]
      = [AgentAction.connectData,
         AgentAction.logLine "Connected to server data channel",
         AgentAction.logLine "Server closed the connection",
         AgentAction.logLine "Disconnected from server",
         AgentAction.sleepSecs 5,
         AgentAction.logLine "Attempting to reconnect...",
         AgentAction.stop] := by
  constructor
  · intro evs
    constructor
    · unfold handle_forwarding
      cases h2 : (cliLoop evs).2 <;>
        simp [h2, List.countP_append, List.countP_cons, cliLoop_no_connectData,
          isConnectData]
    · exact ⟨_, rfl⟩
  · rfl

/-- C10: the serialized request handed to the matched client is exactly
`method ++ " " ++ pathAndQuery (default "/") ++ " HTTP/1.1\r\nHost: " ++ host
++ "\r\n\r\n"`: the result of `handle_request` is independent of the request's
other headers and of its body, and every dispatched frame is the `Data` frame
of that string. -/
theorem c10_request_serialization :
    (∀ m p h, request_data m p h
      = m ++ " " ++ p.getD "/" ++ " HTTP/1.1\r\nHost: " ++ h ++ "\r\n\r\n")
    ∧ (∀ clients (req : HttpRequest) recv hs b,
        handle_request clients { req with headers := hs, body := b } recv
          = handle_request clients req recv)
    ∧ (∀ clients (req : HttpRequest) recv h cid f o,
        req.host = some h →
        handle_request clients req recv = RequestResult.dispatched cid f o →
        f = TunnelMessage.Data (request_data req.method req.pathAndQuery h)) := by
  refine ⟨fun m p h => rfl, ?_, ?_⟩
  · intro clients req recv hs b
    cases req
    rfl
  · intro clients req recv h cid f o hh hr
    obtain ⟨host, hh2, _, hf, _⟩ :=
      handle_request_dispatched clients req recv cid f o hr
    rw [hh] at hh2
    injection hh2 with hh3
    rw [hh3]
    exact hf

/-- Witness for C10: a GET with extra headers and a body dispatches exactly
the serialized line with only the Host header. -/
theorem c10_request_serialization_witness :
    TunnelMessage.Data "GET / HTTP/1.1\r\nHost: abc.public.dev.peril.lol\r\n\r\n"
      = TunnelMessage.Data (request_data "GET" none "abc.public.dev.peril.lol") :=
  c10_request_serialization.2.2 [("abc", none)]
    { host := some "abc.public.dev.peril.lol", method := "GET",
      pathAndQuery := none, headers := [("accept", "text/html")], body := "ignored" }
    RecvEvent.pending "abc.public.dev.peril.lol" "abc"
    (TunnelMessage.Data "GET / HTTP/1.1\r\nHost: abc.public.dev.peril.lol\r\n\r\n")
    GatewayOutcome.gatewayTimeout504 rfl rfl

end RShare
